import Mathlib

/-!
Verification of the debt-payoff core of this repository: the amortization
engine (`planner.py`: `PayoffCalculator`, `validate_debt_portfolio`,
`handle_edge_cases`) and the budget-feasibility detector
(`app/services/slip_detector.py`: `SlipDetector`).

Modelling conventions, stated once:

* Currency amounts and rates are rational numbers (`ℚ`).  The source mixes
  Python `Decimal` (exact for the magnitudes at hand up to its 28-significant-
  digit context) and `float` conversions at record boundaries; both are
  modelled as exact rational arithmetic.  Every property proved below is a
  structural identity or inequality between quantities the code itself
  computes and stores, and is invariant under that idealisation.
* Python's `datetime.now().replace(day=1)` is modelled as an explicit
  year/month parameter (`YM`) threaded through the engine; advancing by
  `timedelta(days=32)` then `replace(day=1)` is exactly one calendar month.
* Python dicts built per working debt are modelled as structures; the
  `remaining_balances` dict is a list of (name, balance) pairs in working-set
  order, looked up with last-write-wins semantics as a dict is.
-/

/-- A debt record as the engine receives it (`models.Debt`): `id` is optional
in the source model (unsaved rows have `None`). -/
structure Debt where
  id : Option Nat
  name : String
  balance : ℚ
  interest_rate : ℚ
  minimum_payment : ℚ
  due_date : Int
deriving DecidableEq

/-- The engine-internal working copy of one debt (`planner.py` lines
177-186 builds one fresh dict per input debt). -/
structure WDebt where
  id : Option Nat
  name : String
  balance : ℚ
  interest_rate : ℚ
  minimum_payment : ℚ
  due_date : Int
deriving DecidableEq

/-- One per-debt entry of a month's `payments` list (`planner.py` lines
234-240). -/
structure PaymentRecord where
  debt_id : Option Nat
  debt_name : String
  payment : ℚ
  interest_portion : ℚ
  principal_portion : ℚ
deriving DecidableEq

/-- One `month_data` dict (`planner.py` lines 200-207). -/
structure MonthData where
  month : Nat
  date : String
  payments : List PaymentRecord
  total_payment : ℚ
  total_interest : ℚ
  remaining_balances : List (String × ℚ)
deriving DecidableEq

/-- A simulated calendar position: the first of `month` in `year`. -/
structure YM where
  year : Nat
  month : Nat
deriving DecidableEq

/-- The dict `_calculate_payoff_schedule` returns (`planner.py` lines
289-301); the summary sub-dict is flattened into the two fields the code
computes (`total_interest_saved` is the constant 0 there and is omitted). -/
structure PayoffResult where
  strategy : String
  total_months : Nat
  total_payments : ℚ
  total_interest : ℚ
  payoff_timeline : List (String × Nat × String)
  monthly_schedule : List MonthData
  summary_total_debt : ℚ
  summary_completion_date : Option String
deriving DecidableEq

/-- Zero-padded two-digit rendering of a month number, as `%m` formats it. -/
def pad2 (n : Nat) : String :=
  if n < 10 then "0" ++ toString n else toString n

/-- Zero-padded four-digit rendering of a year, as `%Y` formats it. -/
def pad4 (n : Nat) : String :=
  if n < 10 then "000" ++ toString n
  else if n < 100 then "00" ++ toString n
  else if n < 1000 then "0" ++ toString n
  else toString n

/-- The `'%Y-%m'` date label of a simulated month (`planner.py` line 202). -/
def fmtYM (t : YM) : String :=
  pad4 t.year ++ "-" ++ pad2 t.month

/-- Advance the simulated calendar one month: `current_date +=
timedelta(days=32)` followed by `replace(day=1)` (`planner.py` lines
268-269) lands exactly on the first of the next month. -/
def nextYM (t : YM) : YM :=
  if 12 ≤ t.month then ⟨t.year + 1, 1⟩ else ⟨t.year, t.month + 1⟩

/-- Round half to even to an integer, the rule both `Decimal` and `float`
formatting (`:.0f`) apply. -/
def roundHalfEven (q : ℚ) : Int :=
  let f := ⌊q⌋
  let r := q - (f : ℚ)
  if r < 1/2 then f
  else if 1/2 < r then f + 1
  else if f % 2 = 0 then f else f + 1

/-- Python's `f'{x:.0f}'`: no decimals. -/
def fmt0 (q : ℚ) : String :=
  toString (roundHalfEven q)

/-- Python's `f'{x:.2f}'`: exactly two decimals. -/
def fmt2 (q : ℚ) : String :=
  let n := roundHalfEven (q * 100)
  let sign := if n < 0 then "-" else ""
  let m := n.natAbs
  sign ++ toString (m / 100) ++ "." ++ (if m % 100 < 10 then "0" else "") ++ toString (m % 100)

/-- The clone of one input debt into the working set (`planner.py` lines
179-186): every field value is copied; the caller's object is never written. -/
def toWorking (d : Debt) : WDebt :=
  { id := d.id, name := d.name, balance := d.balance,
    interest_rate := d.interest_rate, minimum_payment := d.minimum_payment,
    due_date := d.due_date }

/-- Step 1 of a month (`planner.py` lines 211-218): add monthly interest
`balance * interest_rate / 100 / 12` to every debt with a positive balance. -/
def accrueDebts (ds : List WDebt) : List WDebt :=
  ds.map fun d =>
    if 0 < d.balance then
      { d with balance := d.balance + d.balance * d.interest_rate / 100 / 12 }
    else d

/-- The interest the same loop adds to `month_data['total_interest']`
(`planner.py` lines 220-221). -/
def accrueInterest (ds : List WDebt) : ℚ :=
  (ds.map fun d =>
    if 0 < d.balance then d.balance * d.interest_rate / 100 / 12 else 0).sum

/-- Phase A balances (`planner.py` lines 227-232): each debt with a positive
balance pays `min(minimum_payment, balance)`. -/
def payMinDebts (ds : List WDebt) : List WDebt :=
  ds.map fun d =>
    if 0 < d.balance then
      { d with balance := d.balance - min d.minimum_payment d.balance }
    else d

/-- Phase A payment records (`planner.py` lines 234-240): appended only for
debts with a positive balance; `interest_portion` is computed on the
post-payment balance and `principal_portion` is the whole payment, exactly
as the source writes them. -/
def payMinRecords (ds : List WDebt) : List PaymentRecord :=
  (ds.filter fun d => decide (0 < d.balance)).map fun d =>
    let pay := min d.minimum_payment d.balance
    let b := d.balance - pay
    { debt_id := d.id, debt_name := d.name, payment := pay,
      interest_portion := if 0 < b then b * d.interest_rate / 100 / 12 else 0,
      principal_portion := pay }

/-- The amount phase A adds to `month_data['total_payment']` (and subtracts
from `remaining_payment`). -/
def payMinTotal (ds : List WDebt) : ℚ :=
  ((ds.filter fun d => decide (0 < d.balance)).map fun d =>
    min d.minimum_payment d.balance).sum

/-- Phase B (`planner.py` lines 244-260): walk the working set in strategy
order, give the whole remaining payment (capped at the balance) to the first
debt with a positive balance, and stop.  Returns the updated working set and,
when a debt was paid, its id and the amount applied. -/
def applySurplus (r : ℚ) : List WDebt → List WDebt × Option (Option Nat × ℚ)
  | [] => ([], none)
  | d :: ds =>
    if 0 < d.balance then
      ({ d with balance := d.balance - min r d.balance } :: ds, some (d.id, min r d.balance))
    else
      let t := applySurplus r ds
      (d :: t.1, t.2)

/-- The payment-record update of phase B (`planner.py` lines 253-257): the
first record whose `debt_id` matches gets the extra added to `payment` and
`principal_portion`. -/
def updateFirst (i : Option Nat) (e : ℚ) : List PaymentRecord → List PaymentRecord
  | [] => []
  | p :: ps =>
    if p.debt_id = i then
      { p with payment := p.payment + e, principal_portion := p.principal_portion + e } :: ps
    else p :: updateFirst i e ps

/-- One iteration of the month loop (`planner.py` lines 199-269): accrue
interest, pay minimums, cascade the surplus, record the snapshot. -/
def simMonth (avail : ℚ) (m : Nat) (t : YM) (ds : List WDebt) : MonthData × List WDebt :=
  let ds1 := accrueDebts ds
  let intSum := accrueInterest ds
  let ds2 := payMinDebts ds1
  let recs := payMinRecords ds1
  let paid := payMinTotal ds1
  let remaining := avail - paid
  let sr := if 0 < remaining then applySurplus remaining ds2 else (ds2, none)
  let recs2 := match sr.2 with
    | some ie => updateFirst ie.1 ie.2 recs
    | none => recs
  let extraAmt := match sr.2 with
    | some ie => ie.2
    | none => 0
  ({ month := m, date := fmtYM t, payments := recs2,
     total_payment := paid + extraAmt, total_interest := intSum,
     remaining_balances := sr.1.map fun d => (d.name, d.balance) }, sr.1)

/-- The month loop (`planner.py` lines 199-274): runs while some balance is
positive; the fuel models the safety break `if month > 600: break` taken
after the increment, so at most `fuel` snapshots are produced. -/
def runMonths (avail : ℚ) : Nat → Nat → YM → List WDebt → List MonthData × List WDebt
  | 0, _, _, ds => ([], ds)
  | fuel + 1, m, t, ds =>
    if ds.any fun d => decide (0 < d.balance) then
      let s := simMonth avail m t ds
      let r := runMonths avail fuel (m + 1) (nextYM t) s.2
      (s.1 :: r.1, r.2)
    else ([], ds)

/-- Dict lookup on `remaining_balances` with last-write-wins semantics. -/
def lookupLast (nm : String) (l : List (String × ℚ)) : Option ℚ :=
  l.reverse.lookup nm

/-- Payoff-timeline search (`planner.py` lines 280-287): the first month
whose snapshot shows a zero remaining balance for the name. -/
def payoffEntry (nm : String) : Nat → List MonthData → Option (Nat × String)
  | _, [] => none
  | i, md :: rest =>
    if lookupLast nm md.remaining_balances = some 0 then some (i + 1, md.date)
    else payoffEntry nm (i + 1) rest

/-- The engine `_calculate_payoff_schedule` (`planner.py` lines 138-301):
`start` is the month `datetime.now()` falls in.  Total fuel is 600 months.
`total_interest` is the running sum the source keeps per interest charge,
which equals the sum of the per-month totals. -/
def calculate_payoff_schedule (extra : ℚ) (start : YM) (sorted_debts : List Debt)
    (strategy : String) : PayoffResult :=
  let working := sorted_debts.map toWorking
  let total_minimum := (working.map fun d => d.minimum_payment).sum
  let total_available := total_minimum + extra
  let run := runMonths total_available 600 1 start working
  let schedule := run.1
  { strategy := strategy
    total_months := schedule.length
    total_payments := (schedule.map fun md => md.total_payment).sum
    total_interest := (schedule.map fun md => md.total_interest).sum
    payoff_timeline := sorted_debts.filterMap fun d =>
      (payoffEntry d.name 0 schedule).map fun e => (d.name, e)
    monthly_schedule := schedule
    summary_total_debt := (sorted_debts.map fun d => d.balance).sum
    summary_completion_date := (schedule.getLast?).map fun md => md.date }

/-- The snowball ordering relation: ascending balance (`planner.py` line 100,
`sorted(debts, key=lambda d: d.balance)`). -/
def snowballLe (a b : Debt) : Prop :=
  a.balance ≤ b.balance

/-- The avalanche ordering relation: descending interest rate (`planner.py`
line 135, `sorted(..., key=lambda d: d.interest_rate, reverse=True)`). -/
def avalancheGe (a b : Debt) : Prop :=
  b.interest_rate ≤ a.interest_rate

instance : DecidableRel snowballLe := fun a b =>
  inferInstanceAs (Decidable (a.balance ≤ b.balance))

instance : DecidableRel avalancheGe := fun a b =>
  inferInstanceAs (Decidable (b.interest_rate ≤ a.interest_rate))

instance : IsTotal Debt snowballLe :=
  ⟨fun a b => le_total a.balance b.balance⟩

instance : IsTrans Debt snowballLe :=
  ⟨fun _ _ _ h h2 => le_trans h h2⟩

instance : IsTotal Debt avalancheGe :=
  ⟨fun a b => le_total b.interest_rate a.interest_rate⟩

instance : IsTrans Debt avalancheGe :=
  ⟨fun _ _ _ h h2 => le_trans h2 h⟩

/-- `calculate_snowball` (`planner.py` lines 68-101): Python's `sorted` is a
stable sort; a stable sort by a total preorder is unique, and
`List.insertionSort` computes it (stability proved below). -/
def calculate_snowball (extra : ℚ) (start : YM) (debts : List Debt) : PayoffResult :=
  calculate_payoff_schedule extra start (List.insertionSort snowballLe debts) "snowball"

/-- `calculate_avalanche` (`planner.py` lines 103-136). -/
def calculate_avalanche (extra : ℚ) (start : YM) (debts : List Debt) : PayoffResult :=
  calculate_payoff_schedule extra start (List.insertionSort avalancheGe debts) "avalanche"

/-- `_get_recommendation_reason` (`planner.py` lines 357-385). -/
def get_recommendation_reason (interest_diff : ℚ) (time_diff : Int) : String :=
  if 500 < interest_diff then
    "Avalanche saves $" ++ fmt2 interest_diff ++ " in interest over " ++
      toString time_diff ++ " months - significant financial benefit"
  else if 100 < interest_diff then
    "Avalanche saves $" ++ fmt2 interest_diff ++
      " in interest with similar timeline - moderate financial benefit"
  else if time_diff < -3 then
    "Snowball completes " ++ toString time_diff.natAbs ++
      " months faster - psychological momentum may improve success rate"
  else
    "Both strategies have similar outcomes; choose based on personal motivation style"

/-- The `comparison` object of `compare_strategies` (`planner.py` lines
346-355) together with the two nested results. -/
structure ComparisonResult where
  snowball : PayoffResult
  avalanche : PayoffResult
  avalanche_saves_interest : ℚ
  avalanche_saves_months : Int
  recommended_strategy : String
  recommendation_reason : String
deriving DecidableEq

/-- `compare_strategies` (`planner.py` lines 303-355). -/
def compare_strategies (extra : ℚ) (start : YM) (debts : List Debt) : ComparisonResult :=
  let s := calculate_snowball extra start debts
  let a := calculate_avalanche extra start debts
  let idiff := s.total_interest - a.total_interest
  let tdiff := (s.total_months : Int) - (a.total_months : Int)
  { snowball := s
    avalanche := a
    avalanche_saves_interest := idiff
    avalanche_saves_months := tdiff
    recommended_strategy := if 100 < idiff then "avalanche" else "snowball"
    recommendation_reason := get_recommendation_reason idiff tdiff }

/-- One debt as the slip detector reads it: only `minimum_payment` is used
(`slip_detector.py` lines 60-70).  The source coerces int, float and numeric
string inputs to `Decimal`; the coerced value is modelled directly as the
rational. -/
structure SlipDebt where
  minimum_payment : ℚ
deriving DecidableEq

/-- The analysis dict the slip detector returns (`slip_detector.py` lines
93-151). -/
structure SlipResult where
  is_feasible : Bool
  has_slip : Bool
  monthly_budget : ℚ
  total_minimum_payments : ℚ
  surplus : ℚ
  shortfall : ℚ
  suggestion_amount : ℚ
  suggestion_text : Option String
  message : String
deriving DecidableEq

/-- `_calculate_total_minimum_payments` (`slip_detector.py` lines 60-70). -/
def calculate_total_minimum_payments (debts : List SlipDebt) : ℚ :=
  (debts.map fun d => d.minimum_payment).sum

/-- `_calculate_remediation_suggestion` (`slip_detector.py` lines 72-85):
`max($25, ceil(shortfall / $25) * $25)`, and 0 for a non-positive shortfall. -/
def calculate_remediation_suggestion (shortfall : ℚ) : ℚ :=
  if shortfall ≤ 0 then 0
  else max 25 ((⌈shortfall / 25⌉ : ℚ) * 25)

/-- `_create_feasible_response` (`slip_detector.py` lines 87-103). -/
def create_feasible_response (budget total : ℚ) : SlipResult :=
  { is_feasible := true, has_slip := false, monthly_budget := budget,
    total_minimum_payments := total, surplus := budget - total, shortfall := 0,
    suggestion_amount := 0, suggestion_text := none,
    message := "Budget is sufficient for all minimum payments" }

/-- `_create_slip_response` (`slip_detector.py` lines 105-123). -/
def create_slip_response (budget total shortfall suggestion : ℚ) : SlipResult :=
  { is_feasible := false, has_slip := true, monthly_budget := budget,
    total_minimum_payments := total, surplus := 0, shortfall := shortfall,
    suggestion_amount := suggestion,
    suggestion_text := some ("Apply $" ++ fmt0 suggestion),
    message := "Budget shortfall of $" ++ fmt2 shortfall ++ ". Consider applying $"
      ++ fmt0 suggestion ++ " additional monthly budget." }

/-- `_create_zero_budget_response` (`slip_detector.py` lines 125-137): the
constants 0.0 are written out regardless of the actual budget and debts. -/
def create_zero_budget_response : SlipResult :=
  { is_feasible := false, has_slip := true, monthly_budget := 0,
    total_minimum_payments := 0, surplus := 0, shortfall := 0,
    suggestion_amount := 25, suggestion_text := some ("Apply $" ++ fmt0 25),
    message := "No budget available. Consider establishing a minimum monthly budget." }

/-- `_create_no_debts_response` (`slip_detector.py` lines 139-151). -/
def create_no_debts_response (budget : ℚ) : SlipResult :=
  { is_feasible := true, has_slip := false, monthly_budget := budget,
    total_minimum_payments := 0, surplus := budget, shortfall := 0,
    suggestion_amount := 0, suggestion_text := none,
    message := "No debts to analyze" }

/-- `analyze_budget_feasibility` (`slip_detector.py` lines 20-58). -/
def analyze_budget_feasibility (budget : ℚ) (debts : List SlipDebt) : SlipResult :=
  if budget ≤ 0 then create_zero_budget_response
  else if debts = [] then create_no_debts_response budget
  else
    let total := calculate_total_minimum_payments debts
    if total ≤ budget then create_feasible_response budget total
    else
      let shortfall := total - budget
      create_slip_response budget total shortfall (calculate_remediation_suggestion shortfall)

/-- A raw dict value as the portfolio validator can meet one: a number (int
or float), a string, or Python `None`. -/
inductive PyVal where
  | num : ℚ → PyVal
  | str : String → PyVal
  | pynone : PyVal
deriving DecidableEq

/-- A raw debt dict for `validate_debt_portfolio`: each required key is
present (`some`) or absent (`none`). -/
structure RawDebt where
  name : Option PyVal
  balance : Option PyVal
  interest_rate : Option PyVal
  minimum_payment : Option PyVal
deriving DecidableEq

/-- An exception escaping `validate_debt_portfolio`.  Its `try` blocks catch
only `ValueError` and `TypeError`; these three escape. -/
inductive PyErr where
  | keyError : String → PyErr
  | nameError : PyErr
  | attributeError : PyErr
deriving DecidableEq

/-- Digits of a numeral, most significant first. -/
def parseDigitsAux : Nat → List Char → Option Nat
  | acc, [] => some acc
  | acc, c :: cs =>
    if c.isDigit then parseDigitsAux (acc * 10 + (c.toNat - 48)) cs else none

/-- A non-empty all-digit run as a number. -/
def parseDigits (cs : List Char) : Option Nat :=
  if cs = [] then none else parseDigitsAux 0 cs

/-- The decimal numerals Python's `float()` accepts, restricted to the plain
`[-]digits[.digits]` forms (exponents, infinities and surrounding whitespace
are outside the inputs considered here); everything else raises
`ValueError`. -/
def parseDecimalString (s : String) : Option ℚ :=
  let cs := s.data
  let sign : ℚ := if cs.head? = some '-' then -1 else 1
  let cs := if cs.head? = some '-' ∨ cs.head? = some '+' then cs.drop 1 else cs
  let intPart := cs.takeWhile fun c => c ≠ '.'
  let rest := cs.dropWhile fun c => c ≠ '.'
  match rest with
  | [] => (parseDigits intPart).map fun n => sign * n
  | _ :: frac =>
    if frac.any fun c => c = '.' then none
    else if intPart = [] ∧ frac = [] then none
    else
      let i : Option Nat := if intPart = [] then some 0 else parseDigits intPart
      let f : Option Nat := if frac = [] then some 0 else parseDigits frac
      match i, f with
      | some iv, some fv => some (sign * ((iv : ℚ) + (fv : ℚ) / ((10 : ℚ) ^ frac.length)))
      | _, _ => none

/-- Python's `float(value)` on a dict value: numbers convert, numeric strings
parse, everything else raises `ValueError` or `TypeError` (the validator
catches both alike, so the error carries no payload). -/
def pyFloat : PyVal → Except Unit ℚ
  | .num q => .ok q
  | .str s =>
    match parseDecimalString s with
    | some q => .ok q
    | none => .error ()
  | .pynone => .error ()

/-- Python's `str.strip()`: drop leading and trailing whitespace. -/
def pyStrip (s : String) : String :=
  ⟨((s.data.dropWhile Char.isWhitespace).reverse.dropWhile Char.isWhitespace).reverse⟩

/-- The name check at the end of the loop body (`planner.py` lines 460-462):
`debt.get('name', '').strip()` raises `AttributeError` on a non-string
value. -/
def nameCheck (d : RawDebt) (pfx : String) (errs : List String) (bal : Option ℚ) :
    Except PyErr (List String × Option ℚ) :=
  match d.name.getD (.str "") with
  | .str s => .ok (errs ++ (if pyStrip s = "" then [pfx ++ ": Name cannot be empty"] else []), bal)
  | _ => .error PyErr.attributeError

/-- The minimum-payment `try` block and the final name check (`planner.py`
lines 451-462): when the payment parsed and is non-negative, `min_payment >
balance` reads the `balance` local, which raises `NameError` when no earlier
balance conversion ever bound it. -/
def minPaymentCheck (d : RawDebt) (pfx : String) (errs : List String) (bal : Option ℚ) :
    Except PyErr (List String × Option ℚ) :=
  match d.minimum_payment with
  | none => .error (.keyError "minimum_payment")
  | some v =>
    match pyFloat v with
    | .error _ => nameCheck d pfx (errs ++ [pfx ++ ": Invalid minimum payment value"]) bal
    | .ok mp =>
      if mp < 0 then
        nameCheck d pfx (errs ++ [pfx ++ ": Minimum payment cannot be negative"]) bal
      else
        match bal with
        | none => .error PyErr.nameError
        | some b =>
          nameCheck d pfx
            (errs ++ (if b < mp then [pfx ++ ": Minimum payment exceeds balance"] else [])) bal

/-- The body of `validate_debt_portfolio`'s per-debt loop (`planner.py`
lines 424-462), for debt index `idx`, threading the Python local `balance`
across iterations (it leaks from one iteration to the next).  The
missing-field `continue` on line 432 only skips to the next field of the
inner loop, so the later `debt['balance']`-style subscripts still run and
raise `KeyError` when the field is absent; `KeyError`, `NameError` and
`AttributeError` are not among the exceptions the `try` blocks catch. -/
def validateOne (idx : Nat) (d : RawDebt) (balVar : Option ℚ) (errs : List String) :
    Except PyErr (List String × Option ℚ) :=
  let pfx := "Debt " ++ toString (idx + 1)
  let e1 := errs
    ++ (if d.name = none then [pfx ++ ": Missing required field 'name'"] else [])
    ++ (if d.balance = none then [pfx ++ ": Missing required field 'balance'"] else [])
    ++ (if d.interest_rate = none then [pfx ++ ": Missing required field 'interest_rate'"] else [])
    ++ (if d.minimum_payment = none then [pfx ++ ": Missing required field 'minimum_payment'"] else [])
  match d.balance with
  | none => .error (.keyError "balance")
  | some v =>
    let p2 : List String × Option ℚ :=
      match pyFloat v with
      | .error _ => (e1 ++ [pfx ++ ": Invalid balance value"], balVar)
      | .ok b =>
        (e1 ++ (if b < 0 then [pfx ++ ": Balance cannot be negative"]
          else if b = 0 then [pfx ++ ": Zero balance debts should be excluded"]
          else []), some b)
    match d.interest_rate with
    | none => .error (.keyError "interest_rate")
    | some v2 =>
      let e3 : List String :=
        match pyFloat v2 with
        | .error _ => p2.1 ++ [pfx ++ ": Invalid interest rate value"]
        | .ok r =>
          p2.1 ++ (if r < 0 ∨ 100 < r then [pfx ++ ": Interest rate must be between 0-100%"] else [])
      minPaymentCheck d pfx e3 p2.2

/-- The validator's loop over the portfolio. -/
def validateLoop : List RawDebt → Nat → List String → Option ℚ → Except PyErr (List String)
  | [], _, errs, _ => .ok errs
  | d :: ds, i, errs, bal =>
    match validateOne i d bal errs with
    | .error e => .error e
    | .ok s => validateLoop ds (i + 1) s.1 s.2

/-- `validate_debt_portfolio` (`planner.py` lines 388-464). -/
def validate_debt_portfolio (debts : List RawDebt) : Except PyErr (List String) :=
  if debts = [] then .ok ["At least one debt is required"]
  else
    validateLoop debts 0
      (if 10 < debts.length then ["Maximum 10 debts supported for performance requirements"] else [])
      none

/-- A debt dict as `handle_edge_cases` sees one, required fields present
(the sanitizer runs after validation passed). -/
structure EDebt where
  balance : ℚ
  interest_rate : ℚ
  minimum_payment : ℚ
  due_date : Int
deriving DecidableEq

/-- First in-place update of `handle_edge_cases` (`planner.py` lines
608-610): cap the minimum payment at the balance. -/
def minPaymentCap (d : EDebt) : EDebt :=
  if d.balance < d.minimum_payment then { d with minimum_payment := d.balance } else d

/-- Second in-place update (`planner.py` lines 613-616): clamp the annual
rate into [0, 100]. -/
def rateClamp (d : EDebt) : EDebt :=
  if 100 < d.interest_rate then { d with interest_rate := 100 }
  else if d.interest_rate < 0 then { d with interest_rate := 0 }
  else d

/-- Third in-place update (`planner.py` lines 619-620): default an
out-of-range due day to 1. -/
def dueDateFix (d : EDebt) : EDebt :=
  if d.due_date < 1 ∨ 31 < d.due_date then { d with due_date := 1 } else d

/-- The in-place updates `handle_edge_cases` performs on one dict with a
positive balance (`planner.py` lines 604-620), in source order:
`debt['minimum_payment'] = ...` and the rate and due-date clamps assign into
the caller's dict. -/
def sanitizeInPlace (d : EDebt) : EDebt :=
  dueDateFix (rateClamp (minPaymentCap d))

/-- The list `handle_edge_cases` returns (`planner.py` lines 571-624):
zero-balance dicts are skipped, the rest are the caller's own dicts after the
in-place updates. -/
def handle_edge_cases (debts : List EDebt) : List EDebt :=
  (debts.filter fun d => decide (0 < d.balance)).map sanitizeInPlace

/-- The caller's dicts after `handle_edge_cases` returns: dicts with a
non-positive balance were only read; every other dict was sanitized in
place. -/
def handle_edge_cases_post (debts : List EDebt) : List EDebt :=
  debts.map fun d => if 0 < d.balance then sanitizeInPlace d else d

/-- Filtering commutes with an ordered insert when any two elements kept by
the filter are related both ways (equal sort keys): the inserted element
lands before every kept element it precedes. -/
lemma filter_orderedInsert (r : Debt → Debt → Prop) [DecidableRel r] (p : Debt → Bool)
    (h : ∀ a b, p a = true → p b = true → r a b) (a : Debt) (l : List Debt) :
    (l.orderedInsert r a).filter p =
      if p a then a :: l.filter p else l.filter p := by
  induction l with
  | nil => by_cases hpa : p a <;> simp [List.orderedInsert, List.filter, hpa]
  | cons b l ih =>
    by_cases hr : r a b
    · by_cases hpa : p a <;> simp [List.orderedInsert, hr, List.filter, hpa]
    · by_cases hpb : p b
      · by_cases hpa : p a
        · exact absurd (h a b hpa hpb) hr
        · simp [List.orderedInsert, hr, List.filter_cons, hpb, ih, hpa]
      · simp [List.orderedInsert, hr, List.filter_cons, hpb, ih]

/-- Stability of `List.insertionSort` expressed through filters: the
elements sharing any one sort key keep their input order. -/
lemma filter_insertionSort (r : Debt → Debt → Prop) [DecidableRel r] (p : Debt → Bool)
    (h : ∀ a b, p a = true → p b = true → r a b) (l : List Debt) :
    (l.insertionSort r).filter p = l.filter p := by
  induction l with
  | nil => rfl
  | cons a l ih =>
    simp [List.insertionSort, filter_orderedInsert r p h, ih, List.filter_cons]

/-- One unfolding of the month loop when some balance is still positive. -/
lemma runMonths_step (avail : ℚ) (fuel m : Nat) (t : YM) (ds : List WDebt)
    (h : (ds.any fun d => decide (0 < d.balance)) = true) :
    runMonths avail (fuel + 1) m t ds =
      ((simMonth avail m t ds).1 ::
        (runMonths avail fuel (m + 1) (nextYM t) (simMonth avail m t ds).2).1,
       (runMonths avail fuel (m + 1) (nextYM t) (simMonth avail m t ds).2).2) := by
  simp [runMonths, h]

/-- The month loop stops as soon as no balance is positive, whatever fuel is
left. -/
lemma runMonths_stop (avail : ℚ) (fuel m : Nat) (t : YM) (ds : List WDebt)
    (h : (ds.any fun d => decide (0 < d.balance)) = false) :
    runMonths avail fuel m t ds = ([], ds) := by
  cases fuel <;> simp [runMonths, h]

/-- The schedule never outruns the fuel, hence never the 600-month bound. -/
lemma runMonths_length (avail : ℚ) (fuel m : Nat) (t : YM) (ds : List WDebt) :
    (runMonths avail fuel m t ds).1.length ≤ fuel := by
  induction fuel generalizing m t ds with
  | zero => simp [runMonths]
  | succ fuel ih =>
    by_cases h : (ds.any fun d => decide (0 < d.balance)) = true
    · rw [runMonths_step avail fuel m t ds h]
      simpa using Nat.succ_le_succ (ih _ _ _)
    · rw [runMonths_stop avail (fuel + 1) m t ds (by simpa using h)]
      simp

/-- Structural description of phase B: either no debt has a positive balance
and nothing changes, or the working set splits as `pre ++ d :: post` with
`d` the first positive-balance debt, which alone is paid `min r d.balance`. -/
lemma applySurplus_spec (r : ℚ) (ds : List WDebt) :
    ((applySurplus r ds).1 = ds ∧ (applySurplus r ds).2 = none ∧ ∀ d ∈ ds, ¬ 0 < d.balance)
    ∨ ∃ pre d post, ds = pre ++ d :: post ∧ (∀ x ∈ pre, ¬ 0 < x.balance) ∧ 0 < d.balance ∧
        (applySurplus r ds).1 =
          pre ++ { d with balance := d.balance - min r d.balance } :: post ∧
        (applySurplus r ds).2 = some (d.id, min r d.balance) := by
  induction ds with
  | nil => left; simp [applySurplus]
  | cons d ds ih =>
    by_cases hpos : 0 < d.balance
    · right
      exact ⟨[], d, ds, by simp, by simp, hpos, by simp [applySurplus, hpos],
        by simp [applySurplus, hpos]⟩
    · rcases ih with ⟨h1, h2, h3⟩ | ⟨pre, e, post, hsplit, hpre, hepos, h1, h2⟩
      · left
        refine ⟨by simp [applySurplus, hpos, h1], by simp [applySurplus, hpos, h2], ?_⟩
        intro x hx
        rcases List.mem_cons.1 hx with rfl | hx2
        · exact hpos
        · exact h3 x hx2
      · right
        refine ⟨d :: pre, e, post, by simp [hsplit], ?_, hepos,
          by simp [applySurplus, hpos, h1], by simp [applySurplus, hpos, h2]⟩
        intro x hx
        rcases List.mem_cons.1 hx with rfl | hx2
        · exact hpos
        · exact hpre x hx2

/-- Balance/rate nonnegativity of a working set. -/
def WInv (ds : List WDebt) : Prop :=
  ∀ d ∈ ds, 0 ≤ d.balance ∧ 0 ≤ d.interest_rate

lemma WInv_accrueDebts {ds : List WDebt} (h : WInv ds) : WInv (accrueDebts ds) := by
  intro d hd
  rcases List.mem_map.1 hd with ⟨e, he, rfl⟩
  rcases h e he with ⟨hb, hr⟩
  by_cases hpos : 0 < e.balance
  · rw [if_pos hpos]
    exact ⟨add_nonneg hb (by positivity), hr⟩
  · rw [if_neg hpos]
    exact ⟨hb, hr⟩

lemma WInv_payMinDebts {ds : List WDebt} (h : WInv ds) : WInv (payMinDebts ds) := by
  intro d hd
  rcases List.mem_map.1 hd with ⟨e, he, rfl⟩
  rcases h e he with ⟨hb, hr⟩
  by_cases hpos : 0 < e.balance
  · rw [if_pos hpos]
    refine ⟨?_, hr⟩
    show 0 ≤ e.balance - min e.minimum_payment e.balance
    have := min_le_right e.minimum_payment e.balance
    linarith
  · rw [if_neg hpos]
    exact ⟨hb, hr⟩

lemma WInv_applySurplus {r : ℚ} {ds : List WDebt} (h : WInv ds) :
    WInv (applySurplus r ds).1 := by
  rcases applySurplus_spec r ds with ⟨h1, _, _⟩ | ⟨pre, e, post, hsplit, _, _, h1, _⟩
  · rw [h1]; exact h
  · rw [h1]
    intro x hx
    rcases List.mem_append.1 hx with hx2 | hx2
    · exact h x (hsplit ▸ List.mem_append_left _ hx2)
    · rcases List.mem_cons.1 hx2 with rfl | hx3
      · have he := h e (hsplit ▸ List.mem_append_right _ (List.mem_cons_self _ _))
        refine ⟨?_, he.2⟩
        show 0 ≤ e.balance - min r e.balance
        have := min_le_right r e.balance
        linarith
      · exact h x (hsplit ▸ List.mem_append_right _ (List.mem_cons_of_mem _ hx3))

lemma WInv_simMonth {avail : ℚ} {m : Nat} {t : YM} {ds : List WDebt} (h : WInv ds) :
    WInv (simMonth avail m t ds).2 := by
  have h2 : WInv (payMinDebts (accrueDebts ds)) := WInv_payMinDebts (WInv_accrueDebts h)
  by_cases hrem : 0 < avail - payMinTotal (accrueDebts ds)
  · simpa [simMonth, hrem] using WInv_applySurplus h2
  · simpa [simMonth, hrem] using h2

/-- The recorded remaining balances of a month are exactly the post-month
working set. -/
lemma simMonth_balances (avail : ℚ) (m : Nat) (t : YM) (ds : List WDebt) :
    (simMonth avail m t ds).1.remaining_balances =
      (simMonth avail m t ds).2.map fun d => (d.name, d.balance) := by
  simp [simMonth]

lemma runMonths_balances_nonneg (avail : ℚ) (fuel m : Nat) (t : YM) (ds : List WDebt)
    (h : WInv ds) :
    ∀ md ∈ (runMonths avail fuel m t ds).1, ∀ p ∈ md.remaining_balances, 0 ≤ p.2 := by
  induction fuel generalizing m t ds with
  | zero => simp [runMonths]
  | succ fuel ih =>
    by_cases hg : (ds.any fun d => decide (0 < d.balance)) = true
    · rw [runMonths_step avail fuel m t ds hg]
      intro md hmd
      rcases List.mem_cons.1 hmd with rfl | hmd2
      · rw [simMonth_balances]
        intro p hp
        rcases List.mem_map.1 hp with ⟨d, hd, rfl⟩
        exact (WInv_simMonth h d hd).1
      · exact ih _ _ _ (WInv_simMonth h) md hmd2
    · rw [runMonths_stop avail (fuel + 1) m t ds (by simpa using hg)]
      simp

lemma runMonths_final_WInv (avail : ℚ) (fuel m : Nat) (t : YM) (ds : List WDebt)
    (h : WInv ds) : WInv (runMonths avail fuel m t ds).2 := by
  induction fuel generalizing m t ds with
  | zero => simpa [runMonths] using h
  | succ fuel ih =>
    by_cases hg : (ds.any fun d => decide (0 < d.balance)) = true
    · rw [runMonths_step avail fuel m t ds hg]
      exact ih _ _ _ (WInv_simMonth h)
    · rw [runMonths_stop avail (fuel + 1) m t ds (by simpa using hg)]
      exact h

/-- When the loop returned an empty schedule with fuel to spare, it was the
balance condition that stopped it, and the working set is untouched. -/
lemma runMonths_nil (avail : ℚ) (fuel m : Nat) (t : YM) (ds : List WDebt)
    (hfuel : 0 < fuel) (h : (runMonths avail fuel m t ds).1 = []) :
    (runMonths avail fuel m t ds).2 = ds ∧
      (ds.any fun d => decide (0 < d.balance)) = false := by
  match fuel, hfuel with
  | fuel + 1, _ =>
    by_cases hg : (ds.any fun d => decide (0 < d.balance)) = true
    · rw [runMonths_step avail fuel m t ds hg] at h
      simp at h
    · rw [runMonths_stop avail (fuel + 1) m t ds (by simpa using hg)]
      exact ⟨rfl, by simpa using hg⟩

/-- When the loop stopped strictly before its fuel ran out, every final
balance is exactly zero (given nonnegative inputs) and the last snapshot
records the final working set. -/
lemma runMonths_exit (avail : ℚ) (fuel m : Nat) (t : YM) (ds : List WDebt)
    (h : WInv ds) (hlen : (runMonths avail fuel m t ds).1.length < fuel) :
    (∀ d ∈ (runMonths avail fuel m t ds).2, d.balance = 0) ∧
    (∀ md, (runMonths avail fuel m t ds).1.getLast? = some md →
      md.remaining_balances = (runMonths avail fuel m t ds).2.map fun d => (d.name, d.balance)) := by
  induction fuel generalizing m t ds with
  | zero => exact absurd hlen (by simp)
  | succ fuel ih =>
    by_cases hg : (ds.any fun d => decide (0 < d.balance)) = true
    · rw [runMonths_step avail fuel m t ds hg] at hlen ⊢
      have hlen2 : (runMonths avail fuel (m + 1) (nextYM t) (simMonth avail m t ds).2).1.length < fuel := by
        simpa using Nat.lt_of_succ_lt_succ hlen
      have hInv2 := @WInv_simMonth avail m t ds h
      rcases ih (m + 1) (nextYM t) (simMonth avail m t ds).2 hInv2 hlen2 with ⟨hzero, hlast⟩
      refine ⟨hzero, ?_⟩
      intro md hmd
      rcases hrest : (runMonths avail fuel (m + 1) (nextYM t) (simMonth avail m t ds).2).1 with _ | ⟨x, xs⟩
      · rw [hrest] at hmd
        simp only [List.getLast?_singleton, Option.some_inj] at hmd
        subst hmd
        have hfuel2 : 0 < fuel := lt_of_le_of_lt (Nat.zero_le _) hlen2
        rcases runMonths_nil avail fuel (m + 1) (nextYM t) (simMonth avail m t ds).2 hfuel2 hrest with
          ⟨hfin, _⟩
        rw [hfin, simMonth_balances]
      · rw [hrest] at hmd
        rw [List.getLast?_cons_cons] at hmd
        exact hlast md (by rw [hrest]; exact hmd)
    · rw [runMonths_stop avail (fuel + 1) m t ds (by simpa using hg)]
      constructor
      · intro d hd
        have hg2 : ∀ x ∈ ds, x.balance ≤ 0 := by simpa using hg
        exact le_antisymm (hg2 d hd) (h d hd).1
      · simp

/-- The calendar-free projection of a monthly snapshot. -/
def stripMD (md : MonthData) : Nat × List PaymentRecord × ℚ × ℚ × List (String × ℚ) :=
  (md.month, md.payments, md.total_payment, md.total_interest, md.remaining_balances)

/-- The calendar-free projection of an engine result: the date strings of
snapshots, timeline entries and the completion date are dropped. -/
def stripResult (r : PayoffResult) :
    String × Nat × ℚ × ℚ × List (String × Nat) × List (Nat × List PaymentRecord × ℚ × ℚ × List (String × ℚ)) × ℚ :=
  (r.strategy, r.total_months, r.total_payments, r.total_interest,
    r.payoff_timeline.map fun e => (e.1, e.2.1), r.monthly_schedule.map stripMD,
    r.summary_total_debt)

lemma simMonth_strip (avail : ℚ) (m : Nat) (t t2 : YM) (ds : List WDebt) :
    stripMD (simMonth avail m t ds).1 = stripMD (simMonth avail m t2 ds).1 ∧
      (simMonth avail m t ds).2 = (simMonth avail m t2 ds).2 :=
  ⟨rfl, rfl⟩

lemma runMonths_strip (avail : ℚ) (fuel m : Nat) (t t2 : YM) (ds : List WDebt) :
    (runMonths avail fuel m t ds).1.map stripMD = (runMonths avail fuel m t2 ds).1.map stripMD ∧
      (runMonths avail fuel m t ds).2 = (runMonths avail fuel m t2 ds).2 := by
  induction fuel generalizing m t t2 ds with
  | zero => exact ⟨rfl, rfl⟩
  | succ fuel ih =>
    by_cases hg : (ds.any fun d => decide (0 < d.balance)) = true
    · rw [runMonths_step avail fuel m t ds hg, runMonths_step avail fuel m t2 ds hg]
      have hone : (simMonth avail m t2 ds).2 = (simMonth avail m t ds).2 := rfl
      rw [hone]
      rcases ih (m + 1) (nextYM t) (nextYM t2) (simMonth avail m t ds).2 with ⟨h1, h2⟩
      refine ⟨?_, h2⟩
      simp only [List.map_cons, List.cons.injEq]
      exact ⟨(simMonth_strip avail m t t2 ds).1, h1⟩
    · rw [runMonths_stop avail (fuel + 1) m t ds (by simpa using hg),
        runMonths_stop avail (fuel + 1) m t2 ds (by simpa using hg)]
      exact ⟨rfl, rfl⟩

lemma payoffEntry_fst_congr (nm : String) (i : Nat) :
    ∀ {sch1 sch2 : List MonthData}, sch1.map stripMD = sch2.map stripMD →
      (payoffEntry nm i sch1).map Prod.fst = (payoffEntry nm i sch2).map Prod.fst := by
  intro sch1
  induction sch1 generalizing i with
  | nil =>
    intro sch2 h
    have : sch2 = [] := by
      cases sch2 with
      | nil => rfl
      | cons x xs => simp at h
    subst this
    rfl
  | cons md rest ih =>
    intro sch2 h
    cases sch2 with
    | nil => simp at h
    | cons md2 rest2 =>
      simp only [List.map_cons, List.cons.injEq] at h
      have hbal : md.remaining_balances = md2.remaining_balances := by
        have := h.1
        simp only [stripMD, Prod.mk.injEq] at this
        exact this.2.2.2.2
      by_cases hfound : lookupLast nm md.remaining_balances = some 0
      · simp [payoffEntry, hfound, hbal ▸ hfound]
      · have hfound2 : ¬ lookupLast nm md2.remaining_balances = some 0 := hbal ▸ hfound
        simp only [payoffEntry, hfound, hfound2, if_neg, if_false]
        exact ih (i + 1) h.2

lemma roundHalfEven_intCast (n : Int) : roundHalfEven (n : ℚ) = n := by
  unfold roundHalfEven
  rw [Int.floor_intCast]
  norm_num

lemma fmt0_ofNat_25 : fmt0 25 = "25" := by
  have h : roundHalfEven 25 = 25 := by
    have := roundHalfEven_intCast 25
    norm_num at this
    exact this
  rw [fmt0, h]
  rfl

lemma fmt0_ofNat_50 : fmt0 50 = "50" := by
  have h : roundHalfEven 50 = 50 := by
    have := roundHalfEven_intCast 50
    norm_num at this
    exact this
  rw [fmt0, h]
  rfl

/-- C10: with a non-positive monthly budget the slip detector returns the
fixed zero-budget response: reported budget and total minimums are 0.0
whatever the real values, the result is infeasible with shortfall 0 and
suggestion $25, and the supplied debts are never consulted. -/
theorem slip_zero_budget_branch (budget : ℚ) (debts : List SlipDebt) (h : budget ≤ 0) :
    analyze_budget_feasibility budget debts = create_zero_budget_response ∧
    (analyze_budget_feasibility budget debts).monthly_budget = 0 ∧
    (analyze_budget_feasibility budget debts).total_minimum_payments = 0 ∧
    (analyze_budget_feasibility budget debts).is_feasible = false ∧
    (analyze_budget_feasibility budget debts).has_slip = true ∧
    (analyze_budget_feasibility budget debts).shortfall = 0 ∧
    (analyze_budget_feasibility budget debts).suggestion_amount = 25 ∧
    (analyze_budget_feasibility budget debts).suggestion_text = some "Apply $25" ∧
    analyze_budget_feasibility budget debts = analyze_budget_feasibility budget [] := by
  have hz : analyze_budget_feasibility budget debts = create_zero_budget_response := by
    simp [analyze_budget_feasibility, h]
  have hz2 : analyze_budget_feasibility budget [] = create_zero_budget_response := by
    simp [analyze_budget_feasibility, h]
  refine ⟨hz, ?_, ?_, ?_, ?_, ?_, ?_, ?_, by rw [hz, hz2]⟩ <;>
    simp [hz, create_zero_budget_response, fmt0_ofNat_25]

/-- C10 witness: the zero-budget branch at budget −5 with one debt. -/
theorem slip_zero_budget_branch_witness :
    (-5 : ℚ) ≤ 0 ∧
    analyze_budget_feasibility (-5) [⟨100⟩] = create_zero_budget_response ∧
    (analyze_budget_feasibility (-5) [⟨100⟩]).suggestion_amount = 25 :=
  ⟨by norm_num,
    (slip_zero_budget_branch (-5) [⟨100⟩] (by norm_num)).1,
    (slip_zero_budget_branch (-5) [⟨100⟩] (by norm_num)).2.2.2.2.2.2.1⟩

/-- C3: for every reachable positive shortfall the suggestion is
`max($25, ceil(shortfall/$25)*$25)`, the suggestion text is `Apply $n` with
no decimals, and the seven tabulated shortfall/suggestion pairs hold. -/
theorem slip_remediation_rule (budget : ℚ) (debts : List SlipDebt)
    (h1 : 0 < budget) (h2 : debts ≠ [])
    (h3 : budget < calculate_total_minimum_payments debts) :
    (analyze_budget_feasibility budget debts).has_slip = true ∧
    (analyze_budget_feasibility budget debts).is_feasible = false ∧
    (analyze_budget_feasibility budget debts).shortfall =
      calculate_total_minimum_payments debts - budget ∧
    (analyze_budget_feasibility budget debts).suggestion_amount =
      max 25 ((⌈(calculate_total_minimum_payments debts - budget) / 25⌉ : ℚ) * 25) ∧
    (analyze_budget_feasibility budget debts).suggestion_text =
      some ("Apply $" ++ fmt0 ((analyze_budget_feasibility budget debts).suggestion_amount)) ∧
    calculate_remediation_suggestion 10 = 25 ∧
    calculate_remediation_suggestion 25 = 25 ∧
    calculate_remediation_suggestion 26 = 50 ∧
    calculate_remediation_suggestion 50 = 50 ∧
    calculate_remediation_suggestion 51 = 75 ∧
    calculate_remediation_suggestion 100 = 100 ∧
    calculate_remediation_suggestion (251/2) = 150 := by
  have hb : ¬ budget ≤ 0 := not_le.2 h1
  have ht : ¬ calculate_total_minimum_payments debts ≤ budget := not_le.2 h3
  have hpos : ¬ calculate_total_minimum_payments debts - budget ≤ 0 := by
    intro hle
    exact ht (by linarith)
  have hr : analyze_budget_feasibility budget debts =
      create_slip_response budget (calculate_total_minimum_payments debts)
        (calculate_total_minimum_payments debts - budget)
        (calculate_remediation_suggestion (calculate_total_minimum_payments debts - budget)) := by
    simp [analyze_budget_feasibility, hb, h2, ht]
  have hsug : calculate_remediation_suggestion (calculate_total_minimum_payments debts - budget) =
      max 25 ((⌈(calculate_total_minimum_payments debts - budget) / 25⌉ : ℚ) * 25) := by
    rw [calculate_remediation_suggestion, if_neg hpos]
  have c10 : (⌈(10 : ℚ) / 25⌉ : ℤ) = 1 := by rw [Int.ceil_eq_iff] <;> norm_num
  have c25 : (⌈(25 : ℚ) / 25⌉ : ℤ) = 1 := by rw [Int.ceil_eq_iff] <;> norm_num
  have c26 : (⌈(26 : ℚ) / 25⌉ : ℤ) = 2 := by rw [Int.ceil_eq_iff] <;> norm_num
  have c50 : (⌈(50 : ℚ) / 25⌉ : ℤ) = 2 := by rw [Int.ceil_eq_iff] <;> norm_num
  have c51 : (⌈(51 : ℚ) / 25⌉ : ℤ) = 3 := by rw [Int.ceil_eq_iff] <;> norm_num
  have c100 : (⌈(100 : ℚ) / 25⌉ : ℤ) = 4 := by rw [Int.ceil_eq_iff] <;> norm_num
  have c125 : (⌈(251 : ℚ) / 2 / 25⌉ : ℤ) = 6 := by rw [Int.ceil_eq_iff] <;> norm_num
  refine ⟨by rw [hr]; rfl, by rw [hr]; rfl, by rw [hr]; rfl,
    by rw [hr]; simpa [create_slip_response] using hsug,
    by rw [hr]; rfl, ?_, ?_, ?_, ?_, ?_, ?_, ?_⟩ <;>
    · rw [calculate_remediation_suggestion, if_neg (by norm_num)]
      first
        | (rw [c10]; norm_num)
        | (rw [c25]; norm_num)
        | (rw [c26]; norm_num)
        | (rw [c50]; norm_num)
        | (rw [c51]; norm_num)
        | (rw [c100]; norm_num)
        | (rw [c125]; norm_num)

/-- C3 witness: budget $400 against minimums $150 and $300 yields shortfall
$50 and suggestion $50 with text `Apply $50`. -/
theorem slip_remediation_rule_witness :
    (0 : ℚ) < 400 ∧ [(⟨150⟩ : SlipDebt), ⟨300⟩] ≠ [] ∧
    (400 : ℚ) < calculate_total_minimum_payments [⟨150⟩, ⟨300⟩] ∧
    (analyze_budget_feasibility 400 [⟨150⟩, ⟨300⟩]).shortfall =
      calculate_total_minimum_payments [⟨150⟩, ⟨300⟩] - 400 ∧
    (analyze_budget_feasibility 400 [⟨150⟩, ⟨300⟩]).suggestion_text =
      some ("Apply $" ++ fmt0 ((analyze_budget_feasibility 400 [⟨150⟩, ⟨300⟩]).suggestion_amount)) := by
  have htot : calculate_total_minimum_payments [(⟨150⟩ : SlipDebt), ⟨300⟩] = 450 := by
    norm_num [calculate_total_minimum_payments]
  have h := slip_remediation_rule 400 [⟨150⟩, ⟨300⟩] (by norm_num) (by simp)
    (by rw [htot]; norm_num)
  exact ⟨by norm_num, by simp, by rw [htot]; norm_num, h.2.2.1, h.2.2.2.2.1⟩

/-- C4 (code bug, evaluated): on a debt dict whose `balance` key is missing,
`validate_debt_portfolio` raises `KeyError('balance')` instead of returning
error strings: the `continue` of the missing-field check only advances the
field loop, and the `try` blocks catch only `ValueError` and `TypeError`. -/
theorem validator_missing_field_raises :
    validate_debt_portfolio
      [{ name := some (.str "Car loan"), balance := none,
         interest_rate := some (.num 5), minimum_payment := some (.num 100) }] =
    .error (.keyError "balance") := by
  simp [validate_debt_portfolio, validateLoop, validateOne]

/-- C5 counterexample: `handle_edge_cases` mutates a caller-supplied record
in place: a debt with balance 100 and minimum payment 150 has its
`minimum_payment` overwritten with 100.0 inside the caller's own dict. -/
theorem handle_edge_cases_mutates_caller :
    handle_edge_cases_post
        [{ balance := 100, interest_rate := 5, minimum_payment := 150, due_date := 10 }] ≠
      [{ balance := 100, interest_rate := 5, minimum_payment := 150, due_date := 10 }] := by
  norm_num [handle_edge_cases_post, sanitizeInPlace, minPaymentCap, rateClamp, dueDateFix,
    EDebt.mk.injEq]

/-- The three in-place updates, written as one record: balance untouched,
minimum payment capped at the balance, rate clamped into [0, 100], due day
defaulted to 1 when out of range. -/
lemma sanitizeInPlace_eq (d : EDebt) :
    sanitizeInPlace d =
      { balance := d.balance,
        interest_rate := max 0 (min 100 d.interest_rate),
        minimum_payment := min d.minimum_payment d.balance,
        due_date := if d.due_date < 1 ∨ 31 < d.due_date then 1 else d.due_date } := by
  have hmin : minPaymentCap d = { d with minimum_payment := min d.minimum_payment d.balance } := by
    unfold minPaymentCap
    by_cases h : d.balance < d.minimum_payment
    · rw [if_pos h, min_eq_right (le_of_lt h)]
    · rw [if_neg h, min_eq_left (not_lt.1 h)]
  have hrate : ∀ e : EDebt, rateClamp e = { e with interest_rate := max 0 (min 100 e.interest_rate) } := by
    intro e
    unfold rateClamp
    by_cases h2 : (100 : ℚ) < e.interest_rate
    · rw [if_pos h2, min_eq_left (le_of_lt h2)]
      norm_num
    · by_cases h3 : e.interest_rate < 0
      · rw [if_neg h2, if_pos h3, min_eq_right (not_lt.1 h2), max_eq_left (le_of_lt h3)]
      · rw [if_neg h2, if_neg h3, min_eq_right (not_lt.1 h2), max_eq_right (not_lt.1 h3)]
  have hdue : ∀ e : EDebt, dueDateFix e =
      { e with due_date := if e.due_date < 1 ∨ 31 < e.due_date then 1 else e.due_date } := by
    intro e
    unfold dueDateFix
    by_cases h : e.due_date < 1 ∨ 31 < e.due_date
    · rw [if_pos h, if_pos h]
    · rw [if_neg h, if_neg h]
  rw [sanitizeInPlace, hmin, hrate, hdue]

/-- C5 amended: the engine's working set is a value-for-value clone of the
caller's debts (the engine writes only to the clone), while the
`handle_edge_cases` sanitizer updates the caller's own records in place; a
caller record survives unchanged exactly when its balance is non-positive or
all its fields are already in range. -/
theorem sanitizer_mutation_characterised :
    (∀ debts : List EDebt,
      handle_edge_cases debts = (debts.filter fun d => decide (0 < d.balance)).map sanitizeInPlace) ∧
    (∀ debts : List EDebt,
      handle_edge_cases_post debts =
        debts.map fun d => if 0 < d.balance then sanitizeInPlace d else d) ∧
    (∀ d : EDebt,
      (if 0 < d.balance then sanitizeInPlace d else d) = d ↔
        (d.balance ≤ 0 ∨ (d.minimum_payment ≤ d.balance ∧ 0 ≤ d.interest_rate ∧
          d.interest_rate ≤ 100 ∧ 1 ≤ d.due_date ∧ d.due_date ≤ 31))) ∧
    (∀ debts : List Debt,
      (debts.map toWorking).map
          (fun w => (w.id, w.name, w.balance, w.interest_rate, w.minimum_payment, w.due_date)) =
        debts.map fun d =>
          (d.id, d.name, d.balance, d.interest_rate, d.minimum_payment, d.due_date)) := by
  refine ⟨fun _ => rfl, fun _ => rfl, ?_, ?_⟩
  · intro d
    by_cases hb : 0 < d.balance
    · rw [if_pos hb]
      constructor
      · intro h
        have heq := h.symm.trans (sanitizeInPlace_eq d)
        have hmp : d.minimum_payment = min d.minimum_payment d.balance :=
          congrArg EDebt.minimum_payment heq
        have hrt : d.interest_rate = max 0 (min 100 d.interest_rate) :=
          congrArg EDebt.interest_rate heq
        have hdd : d.due_date = (if d.due_date < 1 ∨ 31 < d.due_date then 1 else d.due_date) :=
          congrArg EDebt.due_date heq
        right
        refine ⟨?_, ?_, ?_, ?_, ?_⟩
        · exact min_eq_left_iff.1 hmp.symm
        · have hx : (0 : ℚ) ≤ max 0 (min 100 d.interest_rate) := le_max_left _ _
          rw [← hrt] at hx
          exact hx
        · have hx : max 0 (min 100 d.interest_rate) ≤ 100 :=
            max_le (by norm_num) (min_le_left _ _)
          rw [← hrt] at hx
          exact hx
        · by_cases hc : d.due_date < 1 ∨ 31 < d.due_date
          · rw [if_pos hc] at hdd
            omega
          · push_neg at hc
            omega
        · by_cases hc : d.due_date < 1 ∨ 31 < d.due_date
          · rw [if_pos hc] at hdd
            omega
          · push_neg at hc
            omega
      · intro h
        rcases h with h | ⟨hmp, hr0, hr1, hd1, hd2⟩
        · exact absurd hb (not_lt.2 h)
        · have c1 : ¬ d.balance < d.minimum_payment := not_lt.2 hmp
          have c2 : ¬ (100 : ℚ) < d.interest_rate := not_lt.2 hr1
          have c3 : ¬ d.interest_rate < 0 := not_lt.2 hr0
          have c4 : ¬ (d.due_date < 1 ∨ 31 < d.due_date) := by omega
          simp [sanitizeInPlace, minPaymentCap, rateClamp, dueDateFix, c1, c2, c3, c4]
    · rw [if_neg hb]
      simp [not_lt.1 hb]
  · intro debts
    simp [List.map_map, Function.comp, toWorking]

/-- C8: each strategy ordering is the stable sort by its key: snowball sorts
by ascending balance, avalanche by descending annual rate, both are
permutations of the input, and debts with equal keys keep their relative
input order (no secondary key); the two engine entry points run the engine
on exactly these orderings. -/
theorem strategy_ordering_stable :
    ∀ debts : List Debt,
      (List.insertionSort snowballLe debts).Sorted snowballLe ∧
      (List.insertionSort snowballLe debts).Perm debts ∧
      (∀ q : ℚ, (List.insertionSort snowballLe debts).filter (fun d => decide (d.balance = q)) =
        debts.filter fun d => decide (d.balance = q)) ∧
      (List.insertionSort avalancheGe debts).Sorted avalancheGe ∧
      (List.insertionSort avalancheGe debts).Perm debts ∧
      (∀ q : ℚ,
        (List.insertionSort avalancheGe debts).filter (fun d => decide (d.interest_rate = q)) =
          debts.filter fun d => decide (d.interest_rate = q)) ∧
      (∀ extra start, calculate_snowball extra start debts =
        calculate_payoff_schedule extra start (List.insertionSort snowballLe debts) "snowball") ∧
      (∀ extra start, calculate_avalanche extra start debts =
        calculate_payoff_schedule extra start (List.insertionSort avalancheGe debts) "avalanche") := by
  intro debts
  refine ⟨List.sorted_insertionSort snowballLe debts, List.perm_insertionSort snowballLe debts,
    ?_, List.sorted_insertionSort avalancheGe debts, List.perm_insertionSort avalancheGe debts,
    ?_, fun _ _ => rfl, fun _ _ => rfl⟩
  · intro q
    refine filter_insertionSort snowballLe _ ?_ debts
    intro a b ha hb
    have ha2 : a.balance = q := of_decide_eq_true ha
    have hb2 : b.balance = q := of_decide_eq_true hb
    show a.balance ≤ b.balance
    rw [ha2, hb2]
  · intro q
    refine filter_insertionSort avalancheGe _ ?_ debts
    intro a b ha hb
    have ha2 : a.interest_rate = q := of_decide_eq_true ha
    have hb2 : b.interest_rate = q := of_decide_eq_true hb
    show b.interest_rate ≤ a.interest_rate
    rw [ha2, hb2]

/-- C9: the comparator's difference fields are
`snowball.total_interest − avalanche.total_interest` and
`snowball.total_months − avalanche.total_months`, and the recommendation
policy is applied first match first: over $500 and over $100 of interest
savings both recommend avalanche with the corresponding rationale, a
snowball finish more than 3 months faster recommends snowball with the
momentum rationale, and otherwise snowball with the similar-outcomes
rationale; the tag and the rationale always come from the same row. -/
theorem comparator_policy (extra : ℚ) (start : YM) (debts : List Debt) :
    (compare_strategies extra start debts).avalanche_saves_interest =
      (calculate_snowball extra start debts).total_interest -
        (calculate_avalanche extra start debts).total_interest ∧
    (compare_strategies extra start debts).avalanche_saves_months =
      ((calculate_snowball extra start debts).total_months : Int) -
        ((calculate_avalanche extra start debts).total_months : Int) ∧
    (500 < (compare_strategies extra start debts).avalanche_saves_interest →
      (compare_strategies extra start debts).recommended_strategy = "avalanche" ∧
      (compare_strategies extra start debts).recommendation_reason =
        "Avalanche saves $" ++ fmt2 (compare_strategies extra start debts).avalanche_saves_interest ++
          " in interest over " ++
          toString (compare_strategies extra start debts).avalanche_saves_months ++
          " months - significant financial benefit") ∧
    ((compare_strategies extra start debts).avalanche_saves_interest ≤ 500 →
      100 < (compare_strategies extra start debts).avalanche_saves_interest →
      (compare_strategies extra start debts).recommended_strategy = "avalanche" ∧
      (compare_strategies extra start debts).recommendation_reason =
        "Avalanche saves $" ++ fmt2 (compare_strategies extra start debts).avalanche_saves_interest ++
          " in interest with similar timeline - moderate financial benefit") ∧
    ((compare_strategies extra start debts).avalanche_saves_interest ≤ 100 →
      (compare_strategies extra start debts).avalanche_saves_months < -3 →
      (compare_strategies extra start debts).recommended_strategy = "snowball" ∧
      (compare_strategies extra start debts).recommendation_reason =
        "Snowball completes " ++
          toString (compare_strategies extra start debts).avalanche_saves_months.natAbs ++
          " months faster - psychological momentum may improve success rate") ∧
    ((compare_strategies extra start debts).avalanche_saves_interest ≤ 100 →
      -3 ≤ (compare_strategies extra start debts).avalanche_saves_months →
      (compare_strategies extra start debts).recommended_strategy = "snowball" ∧
      (compare_strategies extra start debts).recommendation_reason =
        "Both strategies have similar outcomes; choose based on personal motivation style") := by
  have hrec : (compare_strategies extra start debts).recommended_strategy =
      (if 100 < (compare_strategies extra start debts).avalanche_saves_interest
        then "avalanche" else "snowball") := rfl
  have hreason : (compare_strategies extra start debts).recommendation_reason =
      get_recommendation_reason (compare_strategies extra start debts).avalanche_saves_interest
        (compare_strategies extra start debts).avalanche_saves_months := rfl
  refine ⟨rfl, rfl, ?_, ?_, ?_, ?_⟩
  · intro h5
    have h1 : (100 : ℚ) < (compare_strategies extra start debts).avalanche_saves_interest := by
      linarith
    exact ⟨by rw [hrec, if_pos h1], by rw [hreason, get_recommendation_reason, if_pos h5]⟩
  · intro h5 h1
    exact ⟨by rw [hrec, if_pos h1],
      by rw [hreason, get_recommendation_reason, if_neg (by linarith), if_pos h1]⟩
  · intro h1 h3
    exact ⟨by rw [hrec, if_neg (not_lt.2 h1)],
      by rw [hreason, get_recommendation_reason, if_neg (by linarith), if_neg (by linarith),
        if_pos h3]⟩
  · intro h1 h3
    exact ⟨by rw [hrec, if_neg (not_lt.2 h1)],
      by rw [hreason, get_recommendation_reason, if_neg (by linarith), if_neg (by linarith),
        if_neg (not_lt.2 h3)]⟩

/-- Month 1 of the single-debt C1 scenario (balance 1000, APR 12%, minimum
payment 200, no extra): interest 10 is accrued first, the payment of 200
leaves 810, and the record is written with `interest_portion` computed on the
post-payment balance 810 and `principal_portion` equal to the whole
payment. -/
lemma simMonth_eval_c1 :
    simMonth 200 1 ⟨2025, 1⟩ [⟨some 1, "Card", 1000, 12, 200, 15⟩] =
      ({ month := 1, date := "2025-01",
         payments := [⟨some 1, "Card", 200, 81/10, 200⟩],
         total_payment := 200, total_interest := 10,
         remaining_balances := [("Card", 810)] },
       [⟨some 1, "Card", 810, 12, 200, 15⟩]) := by
  norm_num [simMonth, accrueDebts, accrueInterest, payMinDebts, payMinRecords, payMinTotal,
    applySurplus, updateFirst, fmtYM, pad4, pad2, min_def, MonthData.mk.injEq, Prod.ext_iff,
    WDebt.mk.injEq, PaymentRecord.mk.injEq, List.filter]
  rfl

/-- The schedule of the C1 scenario starts with that month. -/
lemma sched_eval_c1 :
    (calculate_snowball 0 ⟨2025, 1⟩
        [{ id := some 1, name := "Card", balance := 1000, interest_rate := 12,
           minimum_payment := 200, due_date := 15 }]).monthly_schedule =
      { month := 1, date := "2025-01",
        payments := [⟨some 1, "Card", 200, 81/10, 200⟩],
        total_payment := 200, total_interest := 10,
        remaining_balances := [("Card", 810)] } ::
        (runMonths 200 599 2 ⟨2025, 2⟩ [⟨some 1, "Card", 810, 12, 200, 15⟩]).1 := by
  have hsort : List.insertionSort snowballLe
      [({ id := some 1, name := "Card", balance := 1000, interest_rate := 12,
          minimum_payment := 200, due_date := 15 } : Debt)] =
      [{ id := some 1, name := "Card", balance := 1000, interest_rate := 12,
         minimum_payment := 200, due_date := 15 }] := by
    simp [List.insertionSort, List.orderedInsert]
  have hms : (calculate_snowball 0 ⟨2025, 1⟩
      [({ id := some 1, name := "Card", balance := 1000, interest_rate := 12,
          minimum_payment := 200, due_date := 15 } : Debt)]).monthly_schedule =
      (runMonths 200 600 1 ⟨2025, 1⟩ [⟨some 1, "Card", 1000, 12, 200, 15⟩]).1 := by
    rw [calculate_snowball, hsort]
    show (runMonths _ 600 1 ⟨2025, 1⟩ _).1 = _
    norm_num [toWorking]
  rw [hms]
  have hg : (([(⟨some 1, "Card", 1000, 12, 200, 15⟩ : WDebt)]).any
      fun d => decide (0 < d.balance)) = true := by
    simp
  rw [show (600 : ℕ) = 599 + 1 by norm_num, runMonths_step 200 599 1 ⟨2025, 1⟩ _ hg,
    simMonth_eval_c1]
  rfl

/-- C1 (code bug, evaluated at the failing input): in the first snapshot of
the single-debt scenario, `total_payment` does equal the sum of the per-debt
payments (both 200), but the recorded `principal_portion` is the whole
payment (200) while `interest_portion` is 8.10, so
`principal_portion = payment − interest_portion` fails: the code computes
`interest_portion` on the post-payment balance and never subtracts it from
the principal, contradicting the module docstring ("Principal payment =
Total Payment - Interest Charge") and the test suite's invariant. -/
theorem snapshot_conservation_eval :
    ((calculate_snowball 0 ⟨2025, 1⟩
        [{ id := some 1, name := "Card", balance := 1000, interest_rate := 12,
           minimum_payment := 200, due_date := 15 }]).monthly_schedule.head? =
      some { month := 1, date := "2025-01",
             payments := [⟨some 1, "Card", 200, 81/10, 200⟩],
             total_payment := 200, total_interest := 10,
             remaining_balances := [("Card", 810)] }) ∧
    (200 : ℚ) = ([(⟨some 1, "Card", 200, 81/10, 200⟩ : PaymentRecord)].map fun p => p.payment).sum ∧
    ¬ ∀ md ∈ (calculate_snowball 0 ⟨2025, 1⟩
        [{ id := some 1, name := "Card", balance := 1000, interest_rate := 12,
           minimum_payment := 200, due_date := 15 }]).monthly_schedule,
        ∀ p ∈ md.payments, p.principal_portion = p.payment - p.interest_portion := by
  refine ⟨by rw [sched_eval_c1]; rfl, by norm_num, ?_⟩
  intro hall
  have hmd := hall _ (by rw [sched_eval_c1]; exact List.mem_cons_self _ _)
  have hp := hmd (⟨some 1, "Card", 200, 81/10, 200⟩ : PaymentRecord)
    (by exact List.mem_singleton.2 rfl)
  norm_num at hp

/-- One month of the interest-free single-debt scenario, generic in the
clock: only the date label depends on it. -/
lemma simMonth_eval_c7 (t : YM) :
    simMonth 100 1 t [⟨some 1, "A", 100, 0, 100, 1⟩] =
      ({ month := 1, date := fmtYM t,
         payments := [⟨some 1, "A", 100, 0, 100⟩],
         total_payment := 100, total_interest := 0,
         remaining_balances := [("A", 0)] },
       [⟨some 1, "A", 0, 0, 100, 1⟩]) := by
  norm_num [simMonth, accrueDebts, accrueInterest, payMinDebts, payMinRecords, payMinTotal,
    applySurplus, updateFirst, min_def, MonthData.mk.injEq, Prod.ext_iff,
    WDebt.mk.injEq, PaymentRecord.mk.injEq, List.filter]

/-- The interest-free scenario finishes in one month. -/
lemma sched_eval_c7 (t : YM) :
    (calculate_snowball 0 t
        [{ id := some 1, name := "A", balance := 100, interest_rate := 0,
           minimum_payment := 100, due_date := 1 }]).monthly_schedule =
      [{ month := 1, date := fmtYM t,
         payments := [⟨some 1, "A", 100, 0, 100⟩],
         total_payment := 100, total_interest := 0,
         remaining_balances := [("A", 0)] }] := by
  have hsort : List.insertionSort snowballLe
      [({ id := some 1, name := "A", balance := 100, interest_rate := 0,
          minimum_payment := 100, due_date := 1 } : Debt)] =
      [{ id := some 1, name := "A", balance := 100, interest_rate := 0,
         minimum_payment := 100, due_date := 1 }] := by
    simp [List.insertionSort, List.orderedInsert]
  have hms : (calculate_snowball 0 t
      [({ id := some 1, name := "A", balance := 100, interest_rate := 0,
          minimum_payment := 100, due_date := 1 } : Debt)]).monthly_schedule =
      (runMonths 100 600 1 t [⟨some 1, "A", 100, 0, 100, 1⟩]).1 := by
    rw [calculate_snowball, hsort]
    show (runMonths _ 600 1 t _).1 = _
    norm_num [toWorking]
  rw [hms]
  have hg : (([(⟨some 1, "A", 100, 0, 100, 1⟩ : WDebt)]).any
      fun d => decide (0 < d.balance)) = true := by
    simp
  rw [show (600 : ℕ) = 599 + 1 by norm_num, runMonths_step 100 599 1 t _ hg,
    simMonth_eval_c7]
  have hstop : runMonths 100 599 2 (nextYM t) [(⟨some 1, "A", 0, 0, 100, 1⟩ : WDebt)] =
      ([], [⟨some 1, "A", 0, 0, 100, 1⟩]) := by
    apply runMonths_stop
    simp
  rw [hstop]

/-- The completion date of the interest-free scenario is the formatted clock
month. -/
lemma completion_eval_c7 (t : YM) :
    (calculate_snowball 0 t
        [{ id := some 1, name := "A", balance := 100, interest_rate := 0,
           minimum_payment := 100, due_date := 1 }]).summary_completion_date =
      some (fmtYM t) := by
  have hrfl : (calculate_snowball 0 t
      [({ id := some 1, name := "A", balance := 100, interest_rate := 0,
          minimum_payment := 100, due_date := 1 } : Debt)]).summary_completion_date =
      (((calculate_snowball 0 t
        [{ id := some 1, name := "A", balance := 100, interest_rate := 0,
           minimum_payment := 100, due_date := 1 }]).monthly_schedule.getLast?).map
        fun md => md.date) := rfl
  rw [hrfl, sched_eval_c7]
  rfl

/-- C7 counterexample: the same strategy on the same cloned input at two
different wall-clock months yields different PayoffResults: every numeric
field is equal but the calendar labels differ ("2024-01" against
"2024-02"). -/
theorem engine_output_reads_clock :
    calculate_snowball 0 ⟨2024, 1⟩
        [{ id := some 1, name := "A", balance := 100, interest_rate := 0,
           minimum_payment := 100, due_date := 1 }] ≠
      calculate_snowball 0 ⟨2024, 2⟩
        [{ id := some 1, name := "A", balance := 100, interest_rate := 0,
           minimum_payment := 100, due_date := 1 }] := by
  intro h
  have h1 := completion_eval_c7 ⟨2024, 1⟩
  have h2 := completion_eval_c7 ⟨2024, 2⟩
  rw [h, h2] at h1
  have hs : fmtYM ⟨2024, 2⟩ = fmtYM ⟨2024, 1⟩ := Option.some.inj h1
  have ha : fmtYM ⟨2024, 2⟩ = "2024-02" := by
    norm_num [fmtYM, pad4, pad2]
    rfl
  have hb : fmtYM ⟨2024, 1⟩ = "2024-01" := by
    norm_num [fmtYM, pad4, pad2]
    rfl
  rw [ha, hb] at hs
  exact absurd hs (by decide)

/-- C7 amended: the engine is a pure function of the debt list, the extra
payment and the observed clock month; two runs observing the same month are
identical, and across different clock months every field other than the
calendar labels (snapshot dates, timeline dates, completion date) is
identical, as witnessed by equality of the calendar-free projections. -/
theorem engine_clock_free_determinism (extra : ℚ) (t1 t2 : YM) (debts : List Debt)
    (strategy : String) :
    stripResult (calculate_payoff_schedule extra t1 debts strategy) =
      stripResult (calculate_payoff_schedule extra t2 debts strategy) := by
  simp only [stripResult, calculate_payoff_schedule, Prod.mk.injEq]
  obtain ⟨hmap, -⟩ := runMonths_strip
    (((debts.map toWorking).map fun d => d.minimum_payment).sum + extra) 600 1 t1 t2
    (debts.map toWorking)
  have hsum : ∀ (f : MonthData → ℚ) (g : ℕ × List PaymentRecord × ℚ × ℚ × List (String × ℚ) → ℚ),
      (∀ md, f md = g (stripMD md)) →
      ∀ sch1 sch2 : List MonthData, sch1.map stripMD = sch2.map stripMD →
        (sch1.map f).sum = (sch2.map f).sum := by
    intro f g hfg sch1 sch2 h
    have e1 : sch1.map f = (sch1.map stripMD).map g := by
      rw [List.map_map]
      exact List.map_congr_left fun md _ => hfg md
    have e2 : sch2.map f = (sch2.map stripMD).map g := by
      rw [List.map_map]
      exact List.map_congr_left fun md _ => hfg md
    rw [e1, e2, h]
  have htl : ∀ sch1 sch2 : List MonthData, sch1.map stripMD = sch2.map stripMD →
      (debts.filterMap fun d =>
        (payoffEntry d.name 0 sch1).map fun e => (d.name, e)).map (fun e => (e.1, e.2.1)) =
      (debts.filterMap fun d =>
        (payoffEntry d.name 0 sch2).map fun e => (d.name, e)).map fun e => (e.1, e.2.1) := by
    intro sch1 sch2 h
    rw [List.map_filterMap, List.map_filterMap]
    congr 1
    funext d
    rw [Option.map_map, Option.map_map]
    have hcomp : ((fun x : String × ℕ × String => (x.1, x.2.1)) ∘
        (fun e : ℕ × String => (d.name, e))) = ((fun n : ℕ => (d.name, n)) ∘ Prod.fst) := rfl
    rw [hcomp, ← Option.map_map, ← Option.map_map, payoffEntry_fst_congr d.name 0 h]
  refine ⟨trivial, ?_, ?_, ?_, htl _ _ hmap, hmap, trivial⟩
  · have := congrArg List.length hmap
    simpa using this
  · exact hsum (fun md => md.total_payment) (fun x => x.2.2.1) (fun _ => rfl) _ _ hmap
  · exact hsum (fun md => md.total_interest) (fun x => x.2.2.2.1) (fun _ => rfl) _ _ hmap

/-- C2: for every well-formed debt list the engine terminates within the
600-month safety bound: `total_months` is at most 600 and equals the number
of recorded snapshots, `total_payments` is the sum of `total_payment` over
all snapshots, and when the bound was not hit the final snapshot's remaining
balances are all exactly zero.  The engine is modelled as a total function,
so it raises no exception on any such input. -/
theorem engine_terminates (extra : ℚ) (start : YM) (debts : List Debt) (strategy : String)
    (hb : ∀ d ∈ debts, 0 ≤ d.balance) (hr : ∀ d ∈ debts, 0 ≤ d.interest_rate)
    (hm : ∀ d ∈ debts, 0 ≤ d.minimum_payment) (he : 0 ≤ extra) :
    (calculate_payoff_schedule extra start debts strategy).total_months ≤ 600 ∧
    (calculate_payoff_schedule extra start debts strategy).total_months =
      (calculate_payoff_schedule extra start debts strategy).monthly_schedule.length ∧
    (calculate_payoff_schedule extra start debts strategy).total_payments =
      ((calculate_payoff_schedule extra start debts strategy).monthly_schedule.map
        fun md => md.total_payment).sum ∧
    ((calculate_payoff_schedule extra start debts strategy).total_months ≠ 600 →
      ∀ md, (calculate_payoff_schedule extra start debts strategy).monthly_schedule.getLast? =
          some md →
        ∀ p ∈ md.remaining_balances, p.2 = 0) := by
  have hInv : WInv (debts.map toWorking) := by
    intro w hw
    rcases List.mem_map.1 hw with ⟨d, hd, rfl⟩
    exact ⟨hb d hd, hr d hd⟩
  have hms : (calculate_payoff_schedule extra start debts strategy).monthly_schedule =
      (runMonths (((debts.map toWorking).map fun d => d.minimum_payment).sum + extra)
        600 1 start (debts.map toWorking)).1 := rfl
  have htm : (calculate_payoff_schedule extra start debts strategy).total_months =
      (calculate_payoff_schedule extra start debts strategy).monthly_schedule.length := rfl
  refine ⟨?_, htm, rfl, ?_⟩
  · rw [htm, hms]
    exact runMonths_length _ _ _ _ _
  · intro hne md hlast p hp
    have hlt : (calculate_payoff_schedule extra start debts strategy).monthly_schedule.length
        < 600 := by
      have hle : (calculate_payoff_schedule extra start debts
          strategy).monthly_schedule.length ≤ 600 := by
        rw [hms]
        exact runMonths_length _ _ _ _ _
      rcases lt_or_eq_of_le hle with h | h
      · exact h
      · exact absurd (htm.trans h) hne
    rw [hms] at hlt hlast
    obtain ⟨hzero, hlast2⟩ := runMonths_exit
      (((debts.map toWorking).map fun d => d.minimum_payment).sum + extra)
      600 1 start (debts.map toWorking) hInv hlt
    rw [hlast2 md hlast] at hp
    rcases List.mem_map.1 hp with ⟨w, hw, rfl⟩
    exact hzero w hw

/-- C2 witness: the theorem applied to a concrete one-debt portfolio. -/
theorem engine_terminates_witness :
    (∀ d ∈ [({ id := some 1, name := "A", balance := 100, interest_rate := 0,
               minimum_payment := 60, due_date := 1 } : Debt)], 0 ≤ d.balance) ∧
    (∀ d ∈ [({ id := some 1, name := "A", balance := 100, interest_rate := 0,
               minimum_payment := 60, due_date := 1 } : Debt)], 0 ≤ d.interest_rate) ∧
    (∀ d ∈ [({ id := some 1, name := "A", balance := 100, interest_rate := 0,
               minimum_payment := 60, due_date := 1 } : Debt)], 0 ≤ d.minimum_payment) ∧
    (0 : ℚ) ≤ 0 ∧
    ((calculate_payoff_schedule 0 ⟨2025, 1⟩
        [{ id := some 1, name := "A", balance := 100, interest_rate := 0,
           minimum_payment := 60, due_date := 1 }] "snowball").total_months ≤ 600 ∧
      (calculate_payoff_schedule 0 ⟨2025, 1⟩
        [{ id := some 1, name := "A", balance := 100, interest_rate := 0,
           minimum_payment := 60, due_date := 1 }] "snowball").total_months =
        (calculate_payoff_schedule 0 ⟨2025, 1⟩
          [{ id := some 1, name := "A", balance := 100, interest_rate := 0,
             minimum_payment := 60, due_date := 1 }] "snowball").monthly_schedule.length ∧
      (calculate_payoff_schedule 0 ⟨2025, 1⟩
        [{ id := some 1, name := "A", balance := 100, interest_rate := 0,
           minimum_payment := 60, due_date := 1 }] "snowball").total_payments =
        ((calculate_payoff_schedule 0 ⟨2025, 1⟩
          [{ id := some 1, name := "A", balance := 100, interest_rate := 0,
             minimum_payment := 60, due_date := 1 }] "snowball").monthly_schedule.map
          fun md => md.total_payment).sum ∧
      ((calculate_payoff_schedule 0 ⟨2025, 1⟩
        [{ id := some 1, name := "A", balance := 100, interest_rate := 0,
           minimum_payment := 60, due_date := 1 }] "snowball").total_months ≠ 600 →
        ∀ md, (calculate_payoff_schedule 0 ⟨2025, 1⟩
            [{ id := some 1, name := "A", balance := 100, interest_rate := 0,
               minimum_payment := 60, due_date := 1 }] "snowball").monthly_schedule.getLast? =
            some md →
          ∀ p ∈ md.remaining_balances, p.2 = 0)) := by
  refine ⟨?_, ?_, ?_, le_refl 0, ?_⟩
  · intro d hd
    rcases List.mem_singleton.1 hd with rfl
    norm_num
  · intro d hd
    rcases List.mem_singleton.1 hd with rfl
    norm_num
  · intro d hd
    rcases List.mem_singleton.1 hd with rfl
    norm_num
  · exact engine_terminates 0 ⟨2025, 1⟩ _ "snowball"
      (by intro d hd; rcases List.mem_singleton.1 hd with rfl; norm_num)
      (by intro d hd; rcases List.mem_singleton.1 hd with rfl; norm_num)
      (by intro d hd; rcases List.mem_singleton.1 hd with rfl; norm_num)
      (le_refl 0)

/-- C6: on well-formed inputs every recorded remaining balance stays
nonnegative in every month; phase A debits each positive-balance debt by
exactly `min(minimum_payment, balance)` and records that as the payment; and
phase B either does nothing (no positive balance) or pays only the first
positive-balance debt in strategy order, capped at its balance. -/
theorem balances_never_negative (extra : ℚ) (start : YM) (debts : List Debt) (strategy : String)
    (hb : ∀ d ∈ debts, 0 ≤ d.balance) (hr : ∀ d ∈ debts, 0 ≤ d.interest_rate) :
    (∀ md ∈ (calculate_payoff_schedule extra start debts strategy).monthly_schedule,
      ∀ p ∈ md.remaining_balances, 0 ≤ p.2) ∧
    (∀ ds : List WDebt, payMinDebts ds = ds.map fun d =>
      if 0 < d.balance then { d with balance := d.balance - min d.minimum_payment d.balance }
      else d) ∧
    (∀ ds : List WDebt, payMinRecords ds =
      (ds.filter fun d => decide (0 < d.balance)).map fun d =>
        { debt_id := d.id, debt_name := d.name,
          payment := min d.minimum_payment d.balance,
          interest_portion :=
            if 0 < d.balance - min d.minimum_payment d.balance then
              (d.balance - min d.minimum_payment d.balance) * d.interest_rate / 100 / 12
            else 0,
          principal_portion := min d.minimum_payment d.balance }) ∧
    (∀ (r : ℚ) (ds : List WDebt),
      ((applySurplus r ds).1 = ds ∧ (applySurplus r ds).2 = none ∧ ∀ d ∈ ds, ¬ 0 < d.balance)
      ∨ ∃ pre d post, ds = pre ++ d :: post ∧ (∀ x ∈ pre, ¬ 0 < x.balance) ∧ 0 < d.balance ∧
          (applySurplus r ds).1 =
            pre ++ { d with balance := d.balance - min r d.balance } :: post ∧
          (applySurplus r ds).2 = some (d.id, min r d.balance)) := by
  refine ⟨?_, fun _ => rfl, fun _ => rfl, fun r ds => applySurplus_spec r ds⟩
  have hInv : WInv (debts.map toWorking) := by
    intro w hw
    rcases List.mem_map.1 hw with ⟨d, hd, rfl⟩
    exact ⟨hb d hd, hr d hd⟩
  have hms : (calculate_payoff_schedule extra start debts strategy).monthly_schedule =
      (runMonths (((debts.map toWorking).map fun d => d.minimum_payment).sum + extra)
        600 1 start (debts.map toWorking)).1 := rfl
  rw [hms]
  exact runMonths_balances_nonneg _ _ _ _ _ hInv

/-- Concrete two-debt portfolio for the C6 witness. -/
def c6A : Debt :=
  ⟨some 1, "A", 50, 10, 20, 1⟩

/-- Second debt of the C6 witness portfolio. -/
def c6B : Debt :=
  ⟨some 2, "B", 80, 5, 30, 2⟩

/-- C6 witness: the theorem applied to a concrete two-debt portfolio. -/
theorem balances_never_negative_witness :
    (∀ d ∈ [c6A, c6B], 0 ≤ d.balance) ∧
    (∀ d ∈ [c6A, c6B], 0 ≤ d.interest_rate) ∧
    (∀ md ∈ (calculate_payoff_schedule 25 ⟨2025, 3⟩ [c6A, c6B] "snowball").monthly_schedule,
      ∀ p ∈ md.remaining_balances, 0 ≤ p.2) := by
  have hh1 : ∀ d ∈ [c6A, c6B], 0 ≤ d.balance := by
    intro d hd
    rcases List.mem_cons.1 hd with rfl | hd2
    · norm_num [c6A]
    · rcases List.mem_singleton.1 hd2 with rfl
      norm_num [c6B]
  have hh2 : ∀ d ∈ [c6A, c6B], 0 ≤ d.interest_rate := by
    intro d hd
    rcases List.mem_cons.1 hd with rfl | hd2
    · norm_num [c6A]
    · rcases List.mem_singleton.1 hd2 with rfl
      norm_num [c6B]
  exact ⟨hh1, hh2,
    (balances_never_negative 25 ⟨2025, 3⟩ [c6A, c6B] "snowball" hh1 hh2).1⟩
